import Mathlib

/-!
Shallow embedding of the `discovery_gtr` pipeline
(`src/discovery_gtr/pipeline/gtr_to_s3.py`, with the `main_request`
variant also present in `src/discovery_gtr/getters/unused_gtr_code.py`).

The embedding models:
* the transport layer `main_request`, including both retry layers that the
  source configures: the urllib3 `Retry` mounted on the session
  (`total=max_retries`, `status_forcelist=[500, 502, 503, 504]`), and the
  hand-written outer loop `for attempt in range(max_retries + 1)` that
  catches every `requests.RequestException` (including the `HTTPError`
  raised by `response.raise_for_status()`);
* the paginator `get_total_pages` / page range;
* the per-record field projection loop inside `gtr_to_s3`
  (`extracted_item[header] = item.get(header)`), with Python dict
  semantics (assignment keeps first-insertion position);
* the accumulation loop (`all_data.extend(extracted_data)`);
* the single `put_object` publish (`upload_data_to_s3`);
* the S3 key construction (`get_s3_key`, with the module-level
  `TIMESTAMP = now.strftime("%Y%m%d")`);
* the sequential driver `local_wrapper`.

JSON leaf values are modelled only at the granularity the pipeline
inspects them: the code passes record field values through opaquely
(`item.get(header)`), and only `totalPages` is converted with `int(...)`.
Python exceptions (AttributeError on `None`, NameError on the unbound
`headers` variable) are modelled as `Except` errors, since any uncaught
exception aborts the run before the upload.
-/

namespace GtR

/-- A JSON leaf value as far as the pipeline inspects it. Field values of
records are treated opaquely by the code, so nesting is not needed. -/
inductive Value where
  | null
  | boolean (b : Bool)
  | num (n : Int)
  | str (s : String)
deriving DecidableEq, Repr

/-- A JSON object: an insertion-ordered association list, the model of a
Python dict as the pipeline uses it. -/
abbrev Record := List (String × Value)

/-- First-match association-list lookup: the model of Python `d.get(k)`
returning the stored value (before the `None` default is applied). -/
def alistGet {α : Type} (k : String) : List (String × α) → Option α
  | [] => none
  | (k', v) :: rest => if k' = k then some v else alistGet k rest

/-- Python `item.get(header)`: the stored value when the key is present,
`None` (modelled as `Value.null`) otherwise. -/
def pyGet (item : Record) (k : String) : Value :=
  (alistGet k item).getD Value.null

/-- Python dict assignment `d[k] = v`: overwrite in place when the key is
present (keeping its original position), append otherwise. -/
def dictInsert : Record → String → Value → Record
  | [], k, v => [(k, v)]
  | (k', v') :: rest, k, v =>
    if k' = k then (k', v) :: rest else (k', v') :: dictInsert rest k v

/-- The inner loop of `gtr_to_s3` building `extracted_item`: start from an
empty dict and assign `extracted_item[header] = item.get(header)` for each
header in order. -/
def project (headers : List String) (item : Record) : Record :=
  headers.foldl (fun acc h => dictInsert acc h (pyGet item h)) []

/-- The module-level `ENDPOINT_HEADERS` dict of
`src/discovery_gtr/pipeline/gtr_to_s3.py`. -/
def ENDPOINT_HEADERS : List (String × List String) :=
  [("funds",
    ["end", "id", "start", "category", "rel", "amount", "currencyCode",
     "project_id"]),
   ("persons",
    ["id", "firstName", "surname", "rel", "project_id", "otherNames"]),
   ("organisations",
    ["id", "name", "addresses"]),
   ("projects",
    ["id", "name", "addresses"])]

/-- The `if endpoint in ENDPOINT_HEADERS: headers = ENDPOINT_HEADERS[endpoint]`
check: `some` headers when the endpoint is declared, `none` when the local
variable `headers` stays unbound. -/
def headersFor (endpoint : String) : Option (List String) :=
  alistGet endpoint ENDPOINT_HEADERS

/-- Python `int(...)` on the JSON-decoded values that can reach it. -/
def pyInt : Value → Option Int
  | .num n => some n
  | .str s => s.toInt?
  | _ => none

/-- Errors that abort an endpoint run (uncaught Python exceptions), plus
the distinguished exhausted-transport result. -/
inductive RunError where
  /-- `main_request` returned `None` for the discovery call, so `r.content`
  raises `AttributeError`. -/
  | discoveryNone
  /-- `int(total_pages)` raised (non-numeric `totalPages` value). -/
  | totalPagesNotInt
  /-- `for header in headers` raises `NameError`: `headers` was never
  assigned because the endpoint is not in `ENDPOINT_HEADERS`. -/
  | headersUnbound
  /-- `main_request` returned `None` for this page, so `r.text` raises
  `AttributeError`. -/
  | pageNone (page : Nat)
deriving DecidableEq, Repr

/-- `get_total_pages`: `json.loads(response)` then
`json_response.get("totalPages", 0)` then `int(...)`. The body is the
already-parsed JSON object. -/
def get_total_pages (body : List (String × Value)) : Except RunError Int :=
  match alistGet "totalPages" body with
  | none => .ok 0
  | some v =>
    match pyInt v with
    | some n => .ok n
    | none => .error .totalPagesNotInt

/-- Python `range(1, total_pages + 1)` as a list of page numbers. -/
def pageRange (total : Int) : List Nat :=
  List.range' 1 total.toNat

/-- `get_s3_key` of the pipeline module: the f-string concatenating
`destination_path`, `"GtR_"`, `timestamp`, `"/gtr_"`, `name` and
`".json"`. -/
def get_s3_key (name destination_path timestamp : String) : String :=
  destination_path ++ "GtR_" ++ timestamp ++ "/gtr_" ++ name ++ ".json"

/-- A wall-clock instant, as far as `datetime.datetime.now()` is used. -/
structure DateTime where
  year : Nat
  month : Nat
  day : Nat
  hour : Nat
  minute : Nat
  second : Nat
deriving DecidableEq, Repr

/-- Two-digit zero padding used by `strftime` for `%m` and `%d`. -/
def pad2 (n : Nat) : String :=
  if n < 10 then "0" ++ toString n else toString n

/-- `now.strftime("%Y%m%d")`: the module-level `TIMESTAMP` of the pipeline
script. Only the date fields of the instant appear in the result. -/
def strftime_Ymd (t : DateTime) : String :=
  toString t.year ++ pad2 t.month ++ pad2 t.day

/-- The upstream responses one endpoint run consumes: the parsed discovery
body (or `none` when the transport exhausted its retries), and for each
page number the parsed list of records (or `none` on transport failure). -/
structure Env where
  discovery : Option (List (String × Value))
  pages : Nat → Option (List Record)

/-- The body of the page loop on one page's parsed data: builds
`extracted_data` by projecting each item through the headers. When the
endpoint had no declared headers, the first item hits the unbound
`headers` variable (`NameError`); an empty page never enters the item
loop and contributes nothing. -/
def process_page (headersOpt : Option (List String)) (data : List Record) :
    Except RunError (List Record) :=
  match headersOpt with
  | some hs => .ok (data.map (project hs))
  | none =>
    match data with
    | [] => .ok []
    | _ :: _ => .error .headersUnbound

/-- The page loop of `gtr_to_s3`: fetch each page in order, project its
records, and `all_data.extend(extracted_data)`; any failure aborts the
loop (the Python exception propagates). -/
def fetch_pages (env : Env) (headersOpt : Option (List String)) :
    List Nat → List Record → Except RunError (List Record)
  | [], all_data => .ok all_data
  | p :: ps, all_data =>
    match env.pages p with
    | none => .error (.pageNone p)
    | some data =>
      match process_page headersOpt data with
      | .error e => .error e
      | .ok extracted => fetch_pages env headersOpt ps (all_data ++ extracted)

/-- One `put_object` call made by `upload_data_to_s3`. -/
structure PutCall where
  key : String
  data : List Record
deriving DecidableEq, Repr

/-- The endpoint run `gtr_to_s3`: discovery call, `get_total_pages`,
S3-key construction, headers lookup, page loop, then a single upload of
the accumulated data. Any failure aborts the run before the upload. -/
def gtr_to_s3 (endpoint destination_path timestamp : String) (env : Env) :
    Except RunError PutCall :=
  match env.discovery with
  | none => .error .discoveryNone
  | some body =>
    match get_total_pages body with
    | .error e => .error e
    | .ok total_pages =>
      let s3_key := get_s3_key endpoint destination_path timestamp
      match fetch_pages env (headersFor endpoint) (pageRange total_pages) [] with
      | .error e => .error e
      | .ok all_data => .ok ⟨s3_key, all_data⟩

/-- The `put_object` calls an endpoint run performs: exactly the one call
of `upload_data_to_s3` on success, none when the run aborts earlier. -/
def gtr_writes (endpoint destination_path timestamp : String) (env : Env) :
    List PutCall :=
  match gtr_to_s3 endpoint destination_path timestamp env with
  | .ok put => [put]
  | .error _ => []

/-- `local_wrapper`: run `gtr_to_s3` for each endpoint in order. There is
no exception handling around the calls, so the first endpoint whose run
raises aborts the whole job; the successful puts made before that point
are returned together with the aborting error (if any). -/
def local_wrapper (endpoints : List String)
    (destination_path timestamp : String) (envs : String → Env) :
    List PutCall × Option RunError :=
  match endpoints with
  | [] => ([], none)
  | e :: rest =>
    match gtr_to_s3 e destination_path timestamp (envs e) with
    | .error err => ([], some err)
    | .ok put =>
      let r := local_wrapper rest destination_path timestamp envs
      (put :: r.1, r.2)

/-- One transport-level event: what the next HTTP attempt observes. -/
inductive Ev where
  /-- A connection/timeout error (`requests.ConnectionError` and kin). -/
  | netErr
  /-- A response with the given HTTP status code. -/
  | status (n : Nat)
deriving DecidableEq, Repr

/-- The `status_forcelist` passed to the session's `Retry`. -/
def status_forcelist : List Nat := [500, 502, 503, 504]

/-- Result of one `session.get` (or of the whole `main_request`): the
returned status (or `none` when an exception was raised / `None`
returned), the next unconsumed event index, and the number of HTTP
attempts made. -/
structure GetResult where
  response : Option Nat
  next : Nat
  attempts : Nat
deriving DecidableEq, Repr

/-- One `session.get` through the mounted `HTTPAdapter`: urllib3 retries
network errors and forcelist statuses, consuming one unit of `budget`
(`Retry(total=...)`) per retry; on exhaustion it raises
(`ConnectionError` / `RetryError`), modelled as `response := none`. A
non-forcelist status is returned as-is, whatever it is. -/
def sessionGet (stream : Nat → Ev) : Nat → Nat → GetResult
  | 0, i =>
    match stream i with
    | .netErr => ⟨none, i + 1, 1⟩
    | .status n =>
      if status_forcelist.contains n then ⟨none, i + 1, 1⟩
      else ⟨some n, i + 1, 1⟩
  | b + 1, i =>
    match stream i with
    | .netErr =>
      let g := sessionGet stream b (i + 1)
      ⟨g.response, g.next, g.attempts + 1⟩
    | .status n =>
      if status_forcelist.contains n then
        let g := sessionGet stream b (i + 1)
        ⟨g.response, g.next, g.attempts + 1⟩
      else ⟨some n, i + 1, 1⟩

/-- The outer `for attempt in range(max_retries + 1)` loop of
`main_request`: each iteration performs one `session.get` (with the full
session-level retry budget), returns the response if `response.ok`
(status < 400), and otherwise catches the raised `RequestException`
(`HTTPError` from `raise_for_status`, or `ConnectionError`/`RetryError`
from the adapter) — retrying unless this was the last attempt, in which
case it returns `None`. -/
def mainRequestLoop (stream : Nat → Ev) (maxRetries : Nat) :
    Nat → Nat → Nat → GetResult
  | 0, i, acc => ⟨none, i, acc⟩
  | r + 1, i, acc =>
    let g := sessionGet stream maxRetries i
    match g.response with
    | some n =>
      if n < 400 then ⟨some n, g.next, acc + g.attempts⟩
      else
        match r with
        | 0 => ⟨none, g.next, acc + g.attempts⟩
        | _ + 1 => mainRequestLoop stream maxRetries r g.next (acc + g.attempts)
    | none =>
      match r with
      | 0 => ⟨none, g.next, acc + g.attempts⟩
      | _ + 1 => mainRequestLoop stream maxRetries r g.next (acc + g.attempts)

/-- `main_request` over a stream of transport events. -/
def main_request (stream : Nat → Ev) (maxRetries : Nat) : GetResult :=
  mainRequestLoop stream maxRetries (maxRetries + 1) 0 0

/-- What the page-loop body leaves in `extracted_data` for one page, as a
function of the headers situation: the projected records when headers are
declared, nothing when `headers` is unbound (the only case a successful
loop can reach there is the empty page). -/
def extractedOf (headersOpt : Option (List String)) (data : List Record) :
    List Record :=
  match headersOpt with
  | some hs => data.map (project hs)
  | none => []

/-- A transport whose every response is HTTP 503. -/
def all503 : Nat → Ev := fun _ => Ev.status 503

/-- A transport answering 404 to the first attempt and 200 afterwards. -/
def stream404 : Nat → Ev := fun i => if i = 0 then Ev.status 404 else Ev.status 200

/-- A transport answering 503, 503, then 200 to successive attempts. -/
def stream503x2 : Nat → Ev := fun i =>
  if i = 0 then Ev.status 503 else if i = 1 then Ev.status 503 else Ev.status 200

/-- An environment for the "organisations" endpoint with two pages: page 1
returns one record, page 2 returns no records. -/
def envTwoPages : Env :=
  ⟨some [("totalPages", Value.num 2)],
   fun p => if p = 1 then some [[("id", Value.str "a")]]
            else if p = 2 then some [] else none⟩

/-- An environment whose discovery succeeds with one page but whose page
fetch exhausts the transport (`main_request` returns `None`). -/
def envPageFail : Env :=
  ⟨some [("totalPages", Value.num 1)], fun _ => none⟩

/-- An environment whose discovery body is the empty JSON object, so
`totalPages` is missing. -/
def envNoTotal : Env := ⟨some [], fun _ => none⟩

/-- An environment for an endpoint outside `ENDPOINT_HEADERS` whose single
page returns one record. -/
def envOutcomes : Env :=
  ⟨some [("totalPages", Value.num 1)],
   fun _ => some [[("outcome", Value.str "x")]]⟩

/-- Per-endpoint environments: the "projects" run exhausts its discovery
retries, every other endpoint sees an empty discovery object. -/
def envsFollowing : String → Env := fun e =>
  if e = "projects" then ⟨none, fun _ => none⟩ else ⟨some [], fun _ => none⟩

theorem sessionGet_status_ret (stream : Nat → Ev) (i n b : Nat)
    (hs : stream i = Ev.status n)
    (hf : n ∉ status_forcelist) :
    sessionGet stream b i = ⟨some n, i + 1, 1⟩ := by
  cases b <;> simp [sessionGet, hs, hf]

theorem sessionGet_retry (stream : Nat → Ev) (i b : Nat)
    (h : stream i = Ev.netErr ∨
         ∃ n, stream i = Ev.status n ∧ n ∈ status_forcelist) :
    sessionGet stream (b + 1) i =
      ⟨(sessionGet stream b (i + 1)).response, (sessionGet stream b (i + 1)).next,
       (sessionGet stream b (i + 1)).attempts + 1⟩ := by
  rcases h with h | ⟨n, hs, hf⟩
  · simp [sessionGet, h]
  · simp [sessionGet, hs, hf]

theorem mainRequestLoop_ok_or_none (stream : Nat → Ev) (maxRetries : Nat) :
    ∀ (r i acc : Nat),
      (mainRequestLoop stream maxRetries r i acc).response = none ∨
      ∃ n, (mainRequestLoop stream maxRetries r i acc).response = some n ∧
           n < 400 := by
  intro r
  induction r with
  | zero => intro i acc; left; rfl
  | succ r ih =>
    intro i acc
    simp only [mainRequestLoop]
    cases hg : (sessionGet stream maxRetries i).response with
    | none =>
      cases r with
      | zero => left; rfl
      | succ r' => exact ih _ _
    | some n =>
      by_cases hn : n < 400
      · right; exact ⟨n, by simp [hn], hn⟩
      · simp only [if_neg hn]
        cases r with
        | zero => left; rfl
        | succ r' => exact ih _ _

/-- C10: for every transport behaviour and retry bound, `main_request`
either returns a response whose status is successful (`response.ok`,
i.e. status < 400) or returns `None`; it never hands an error-status
response to its caller, and exhaustion yields `None` rather than an
escaping exception (the model is total). -/
theorem main_request_ok_or_none (stream : Nat → Ev) (maxRetries : Nat) :
    (main_request stream maxRetries).response = none ∨
    ∃ n, (main_request stream maxRetries).response = some n ∧ n < 400 :=
  mainRequestLoop_ok_or_none stream maxRetries (maxRetries + 1) 0 0

/-- C2 (counterexample): a 404 — a non-2xx status outside the
`status_forcelist` — is not a hard failure: the outer loop catches the
`HTTPError` raised by `raise_for_status` and retries, so with responses
[404, 200] the call makes a second attempt and returns the 200. -/
theorem status404_is_retried :
    status_forcelist.contains 404 = false ∧
    main_request stream404 3 = ⟨some 200, 2, 2⟩ :=
  ⟨rfl, rfl⟩

/-- C2 (amended): a retry is attempted after every kind of failed
attempt — a network-level failure, a forcelist status (retried inside the
session adapter), and equally any other non-2xx status such as 404,
which `raise_for_status` turns into a caught-and-retried exception. With
any failing first event followed by a 200 and at least one retry
allowed, `main_request` makes a second attempt and returns the 200. -/
theorem any_failure_is_retried (stream : Nat → Ev) (maxRetries : Nat)
    (hm : 1 ≤ maxRetries)
    (hfail : stream 0 = Ev.netErr ∨
             ∃ n, stream 0 = Ev.status n ∧ 400 ≤ n)
    (h1 : stream 1 = Ev.status 200) :
    main_request stream maxRetries = ⟨some 200, 2, 2⟩ := by
  obtain ⟨b, rfl⟩ : ∃ b, maxRetries = b + 1 :=
    ⟨maxRetries - 1, by omega⟩
  have h200 : (200 : Nat) ∉ status_forcelist := by decide
  have hs1 : sessionGet stream b 1 = ⟨some 200, 2, 1⟩ :=
    sessionGet_status_ret stream 1 200 b h1 h200
  rcases hfail with h0 | ⟨n, h0, hn⟩
  · have hs0 : sessionGet stream (b + 1) 0 = ⟨some 200, 2, 2⟩ := by
      rw [sessionGet_retry stream 0 b (Or.inl h0), hs1]
    show mainRequestLoop stream (b + 1) (b + 1 + 1) 0 0 = ⟨some 200, 2, 2⟩
    simp [mainRequestLoop, hs0]
  · by_cases hf : n ∈ status_forcelist
    · have hs0 : sessionGet stream (b + 1) 0 = ⟨some 200, 2, 2⟩ := by
        rw [sessionGet_retry stream 0 b (Or.inr ⟨n, h0, hf⟩), hs1]
      show mainRequestLoop stream (b + 1) (b + 1 + 1) 0 0 = ⟨some 200, 2, 2⟩
      simp [mainRequestLoop, hs0]
    · have hs0 : sessionGet stream (b + 1) 0 = ⟨some n, 1, 1⟩ :=
        sessionGet_status_ret stream 0 n (b + 1) h0 hf
      have hn' : ¬ n < 400 := by omega
      have hs1' : sessionGet stream (b + 1) 1 = ⟨some 200, 2, 1⟩ :=
        sessionGet_status_ret stream 1 200 (b + 1) h1 h200
      show mainRequestLoop stream (b + 1) (b + 1 + 1) 0 0 = ⟨some 200, 2, 2⟩
      simp [mainRequestLoop, hs0, hn', hs1']

/-- C2 (witness): the amended theorem at the concrete stream
[404, 200, 200, ...] with the default bound of 3 retries. -/
theorem any_failure_is_retried_witness :
    main_request stream404 3 = ⟨some 200, 2, 2⟩ :=
  any_failure_is_retried stream404 3 (by decide)
    (Or.inr ⟨404, rfl, by decide⟩) rfl

/-- C3 (counterexample): with `max_retries = 3` and every response a 503,
the call does return `None` without raising, but only after 16 HTTP
attempts, not 4: each of the 4 outer attempts triggers a fresh
`session.get` whose urllib3 `Retry(total=3,
status_forcelist=[500, 502, 503, 504])` itself makes 4 attempts before
raising `RetryError`, which the outer loop catches and retries. -/
theorem exhausted_run_makes_16_attempts :
    (main_request all503 3).response = none ∧
    (main_request all503 3).attempts = 16 ∧
    (main_request all503 3).attempts ≠ 4 :=
  ⟨rfl, rfl, by decide⟩

/-- C3 (amended): with `max_retries ≥ 2`, successive responses
[503, 503, 200] lead to `main_request` returning the 200 response (the
session-level retry absorbs both 503s within the first outer attempt);
with `max_retries = 3` and all responses 503, `main_request` returns
`None` without raising — after 16 total HTTP attempts (4 outer × 4
session-level), not 4. -/
theorem retry_then_succeed_and_exhaust (stream : Nat → Ev) (maxRetries : Nat)
    (hm : 2 ≤ maxRetries)
    (h0 : stream 0 = Ev.status 503) (h1 : stream 1 = Ev.status 503)
    (h2 : stream 2 = Ev.status 200) :
    (main_request stream maxRetries).response = some 200 ∧
    main_request all503 3 = ⟨none, 16, 16⟩ := by
  refine ⟨?_, rfl⟩
  obtain ⟨b, rfl⟩ : ∃ b, maxRetries = b + 2 :=
    ⟨maxRetries - 2, by omega⟩
  have h503 : (503 : Nat) ∈ status_forcelist := by decide
  have h200 : (200 : Nat) ∉ status_forcelist := by decide
  have hs2 : sessionGet stream b 2 = ⟨some 200, 3, 1⟩ :=
    sessionGet_status_ret stream 2 200 b h2 h200
  have hs1 : sessionGet stream (b + 1) 1 = ⟨some 200, 3, 2⟩ := by
    rw [sessionGet_retry stream 1 b (Or.inr ⟨503, h1, h503⟩), hs2]
  have hs0 : sessionGet stream (b + 2) 0 = ⟨some 200, 3, 3⟩ := by
    rw [sessionGet_retry stream 0 (b + 1) (Or.inr ⟨503, h0, h503⟩), hs1]
  show (mainRequestLoop stream (b + 2) (b + 2 + 1) 0 0).response = some 200
  simp [mainRequestLoop, hs0]

/-- C3 (witness): the amended theorem at the concrete stream
[503, 503, 200, 200, ...] with `max_retries = 2`. -/
theorem retry_then_succeed_and_exhaust_witness :
    (main_request stream503x2 2).response = some 200 ∧
    main_request all503 3 = ⟨none, 16, 16⟩ :=
  retry_then_succeed_and_exhaust stream503x2 2 (by decide) rfl rfl rfl

theorem process_page_ok (headersOpt : Option (List String))
    (data out : List Record)
    (h : process_page headersOpt data = .ok out) :
    out = extractedOf headersOpt data ∧ out.length = data.length := by
  cases headersOpt with
  | some hs =>
    simp only [process_page, Except.ok.injEq] at h
    subst h
    simp [extractedOf]
  | none =>
    cases data with
    | nil =>
      simp only [process_page, Except.ok.injEq] at h
      subst h
      simp [extractedOf]
    | cons d ds => simp [process_page] at h

theorem fetch_pages_ok (env : Env) (headersOpt : Option (List String)) :
    ∀ (ps : List Nat) (acc out : List Record),
      fetch_pages env headersOpt ps acc = .ok out →
      ∃ datas : List (List Record),
        ps.map env.pages = datas.map some ∧
        out = acc ++ ((datas.map (extractedOf headersOpt)).flatten) ∧
        out.length = acc.length + (datas.map List.length).sum := by
  intro ps
  induction ps with
  | nil =>
    intro acc out h
    simp only [fetch_pages, Except.ok.injEq] at h
    subst h
    exact ⟨[], by simp, by simp, by simp⟩
  | cons p ps ih =>
    intro acc out h
    cases hp : env.pages p with
    | none => simp [fetch_pages, hp] at h
    | some data =>
      cases hq : process_page headersOpt data with
      | error e => simp [fetch_pages, hp, hq] at h
      | ok extracted =>
        have hrec : fetch_pages env headersOpt ps (acc ++ extracted) = .ok out := by
          simpa [fetch_pages, hp, hq] using h
        obtain ⟨he, hl⟩ := process_page_ok headersOpt data extracted hq
        obtain ⟨datas, hmap, hout, hlen⟩ := ih (acc ++ extracted) out hrec
        refine ⟨data :: datas, ?_, ?_, ?_⟩
        · simp [hp, hmap]
        · rw [hout, he]
          simp [List.append_assoc]
        · rw [hlen]
          simp only [List.length_append, List.map_cons, List.sum_cons, hl]
          omega

theorem gtr_to_s3_ok_parts (endpoint destination_path timestamp : String)
    (env : Env) (body : List (String × Value)) (total_pages : Int)
    (put : PutCall)
    (hd : env.discovery = some body)
    (ht : get_total_pages body = .ok total_pages)
    (hrun : gtr_to_s3 endpoint destination_path timestamp env = .ok put) :
    put.key = get_s3_key endpoint destination_path timestamp ∧
    fetch_pages env (headersFor endpoint) (pageRange total_pages) [] =
      .ok put.data := by
  cases hf : fetch_pages env (headersFor endpoint) (pageRange total_pages) [] with
  | error e =>
    exfalso
    simp [gtr_to_s3, hd, ht, hf] at hrun
  | ok all_data =>
    have hput : put = ⟨get_s3_key endpoint destination_path timestamp, all_data⟩ := by
      have h2 := hrun
      simp only [gtr_to_s3, hd, ht, hf, Except.ok.injEq] at h2
      exact h2.symm
    subst hput
    exact ⟨rfl, rfl⟩

/-- C1: when an endpoint run completes all pages (the run returns
successfully), the published data is exactly the concatenation, in
page-ascending order, of each fetched page's records in their original
within-page order (each record passed through the projection loop), and
its length equals the sum of the record counts the pages actually
returned: nothing is reordered, dropped or duplicated. -/
theorem gtr_collection_order (endpoint destination_path timestamp : String)
    (env : Env) (body : List (String × Value)) (total_pages : Int)
    (put : PutCall)
    (hd : env.discovery = some body)
    (ht : get_total_pages body = .ok total_pages)
    (hrun : gtr_to_s3 endpoint destination_path timestamp env = .ok put) :
    ∃ datas : List (List Record),
      (pageRange total_pages).map env.pages = datas.map some ∧
      put.data = ((datas.map (extractedOf (headersFor endpoint))).flatten) ∧
      put.data.length = (datas.map List.length).sum := by
  obtain ⟨-, hf⟩ :=
    gtr_to_s3_ok_parts endpoint destination_path timestamp env body
      total_pages put hd ht hrun
  obtain ⟨datas, hmap, hout, hlen⟩ :=
    fetch_pages_ok env (headersFor endpoint) (pageRange total_pages) [] put.data hf
  exact ⟨datas, hmap, by simpa using hout, by simpa using hlen⟩

/-- C1 (witness): the theorem at a concrete two-page "organisations" run
(page 1 returns one record, page 2 returns none). -/
theorem gtr_collection_order_witness :
    ∃ datas : List (List Record),
      (pageRange 2).map envTwoPages.pages = datas.map some ∧
      (⟨"data/GtR_20240115/gtr_organisations.json",
        [[("id", Value.str "a"), ("name", Value.null),
          ("addresses", Value.null)]]⟩ : PutCall).data =
        ((datas.map (extractedOf (headersFor "organisations"))).flatten) ∧
      (⟨"data/GtR_20240115/gtr_organisations.json",
        [[("id", Value.str "a"), ("name", Value.null),
          ("addresses", Value.null)]]⟩ : PutCall).data.length =
        (datas.map List.length).sum :=
  gtr_collection_order "organisations" "data/" "20240115" envTwoPages
    [("totalPages", Value.num 2)] 2
    ⟨"data/GtR_20240115/gtr_organisations.json",
     [[("id", Value.str "a"), ("name", Value.null), ("addresses", Value.null)]]⟩
    rfl rfl rfl

/-- C4: publishing is all-or-nothing. Every endpoint run performs either
no `put_object` at all (any failure aborts the run before the publish
call) or exactly one `put_object` carrying the complete accumulated
collection under the run's key; and whenever the transport fails on any
page of the run, nothing is written. -/
theorem gtr_all_or_nothing :
    (∀ (endpoint destination_path timestamp : String) (env : Env),
       gtr_writes endpoint destination_path timestamp env = [] ∨
       ∃ d, gtr_to_s3 endpoint destination_path timestamp env =
              .ok ⟨get_s3_key endpoint destination_path timestamp, d⟩ ∧
            gtr_writes endpoint destination_path timestamp env =
              [⟨get_s3_key endpoint destination_path timestamp, d⟩]) ∧
    (∀ (endpoint destination_path timestamp : String) (env : Env)
       (body : List (String × Value)) (total_pages : Int) (p : Nat),
       env.discovery = some body → get_total_pages body = .ok total_pages →
       p ∈ pageRange total_pages → env.pages p = none →
       gtr_writes endpoint destination_path timestamp env = []) := by
  constructor
  · intro endpoint destination_path timestamp env
    cases hr : gtr_to_s3 endpoint destination_path timestamp env with
    | error e => left; simp [gtr_writes, hr]
    | ok put =>
      right
      have hkey : put.key = get_s3_key endpoint destination_path timestamp := by
        cases hd : env.discovery with
        | none => exfalso; simp [gtr_to_s3, hd] at hr
        | some body =>
          cases ht : get_total_pages body with
          | error e => exfalso; simp [gtr_to_s3, hd, ht] at hr
          | ok total_pages =>
            exact (gtr_to_s3_ok_parts endpoint destination_path timestamp env
              body total_pages put hd ht hr).1
      refine ⟨put.data, ?_, ?_⟩
      · rw [← hkey]
      · rw [← hkey]; simp [gtr_writes, hr]
  · intro endpoint destination_path timestamp env body total_pages p
      hd ht hmem hnone
    cases hr : gtr_to_s3 endpoint destination_path timestamp env with
    | error e => simp [gtr_writes, hr]
    | ok put =>
      exfalso
      obtain ⟨-, hf⟩ :=
        gtr_to_s3_ok_parts endpoint destination_path timestamp env body
          total_pages put hd ht hr
      obtain ⟨datas, hmap, -, -⟩ :=
        fetch_pages_ok env (headersFor endpoint) (pageRange total_pages) []
          put.data hf
      have : env.pages p ∈ (pageRange total_pages).map env.pages :=
        List.mem_map_of_mem env.pages hmem
      rw [hmap] at this
      obtain ⟨d, -, hds⟩ := List.mem_map.mp this
      rw [hnone] at hds
      exact Option.noConfusion hds

/-- C4 (witness): the no-partial-publish half of the theorem at a
concrete run whose only page fetch fails: no object is written. -/
theorem gtr_all_or_nothing_witness :
    gtr_writes "projects" "data/" "20240115" envPageFail = [] :=
  gtr_all_or_nothing.2 "projects" "data/" "20240115" envPageFail
    [("totalPages", Value.num 1)] 1 1 rfl rfl (by decide) rfl

/-- C5 (counterexample): one endpoint's failure does abort the runs of
subsequent endpoints. With "projects" exhausting its discovery retries
and "organisations" set up to succeed (it publishes an empty collection
when run on its own, second conjunct), the sequential driver stops at the
uncaught error from "projects": the job performs no write at all for
"organisations" and ends with the propagated error. -/
theorem endpoint_failure_not_isolated :
    local_wrapper ["projects", "organisations"] "data/" "20240115"
      envsFollowing = ([], some RunError.discoveryNone) ∧
    gtr_to_s3 "organisations" "data/" "20240115"
      (envsFollowing "organisations") =
      .ok ⟨get_s3_key "organisations" "data/" "20240115", []⟩ :=
  ⟨rfl, rfl⟩

/-- C5 (amended): `local_wrapper` wraps the per-endpoint calls in no
exception handler, so as soon as one endpoint's run fails, the whole job
aborts with that error: endpoints after the failing one are never run and
nothing more is written. -/
theorem endpoint_failure_aborts_job (e : String) (rest : List String)
    (destination_path timestamp : String) (envs : String → Env)
    (err : RunError)
    (h : gtr_to_s3 e destination_path timestamp (envs e) = .error err) :
    local_wrapper (e :: rest) destination_path timestamp envs =
      ([], some err) := by
  simp [local_wrapper, h]

/-- C5 (witness): the amended theorem at the concrete failing job of the
counterexample. -/
theorem endpoint_failure_aborts_job_witness :
    local_wrapper ["projects", "organisations"] "data/" "20240115"
      envsFollowing = ([], some RunError.discoveryNone) :=
  endpoint_failure_aborts_job "projects" ["organisations"] "data/"
    "20240115" envsFollowing RunError.discoveryNone rfl

/-- C6 (counterexample): the run timestamp does not guarantee distinct
keys for runs started at different times. `TIMESTAMP` is
`now.strftime("%Y%m%d")` — date-only — so two runs started at different
times on the same day (here 10:30:00 and 11:00:00 on 2024-01-15) produce
the very same destination key. -/
theorem same_day_runs_collide :
    (⟨2024, 1, 15, 10, 30, 0⟩ : DateTime) ≠ ⟨2024, 1, 15, 11, 0, 0⟩ ∧
    get_s3_key "projects" "data/" (strftime_Ymd ⟨2024, 1, 15, 10, 30, 0⟩) =
      get_s3_key "projects" "data/" (strftime_Ymd ⟨2024, 1, 15, 11, 0, 0⟩) :=
  ⟨by decide, rfl⟩

/-- C6 (amended): the generated destination key does equal
`destination_path ++ "GtR_" ++ timestamp ++ "/gtr_" ++ endpoint ++ ".json"`,
but the embedded timestamp is only the run date (`%Y%m%d`): any two runs
started on the same date — at whatever times — produce the identical
key, so distinctness is guaranteed only across dates, not across times. -/
theorem s3_key_embeds_date_only (name destination_path : String)
    (t1 t2 : DateTime)
    (hy : t1.year = t2.year) (hm : t1.month = t2.month)
    (hd : t1.day = t2.day) :
    (∀ ts, get_s3_key name destination_path ts =
       destination_path ++ "GtR_" ++ ts ++ "/gtr_" ++ name ++ ".json") ∧
    get_s3_key name destination_path (strftime_Ymd t1) =
      get_s3_key name destination_path (strftime_Ymd t2) := by
  refine ⟨fun ts => rfl, ?_⟩
  unfold strftime_Ymd
  rw [hy, hm, hd]

/-- C6 (witness): the amended theorem at two same-day instants. -/
theorem s3_key_embeds_date_only_witness :
    (∀ ts, get_s3_key "projects" "data/" ts =
       "data/" ++ "GtR_" ++ ts ++ "/gtr_" ++ "projects" ++ ".json") ∧
    get_s3_key "projects" "data/"
        (strftime_Ymd ⟨2024, 1, 15, 10, 30, 0⟩) =
      get_s3_key "projects" "data/"
        (strftime_Ymd ⟨2024, 1, 15, 23, 59, 59⟩) :=
  s3_key_embeds_date_only "projects" "data/"
    ⟨2024, 1, 15, 10, 30, 0⟩ ⟨2024, 1, 15, 23, 59, 59⟩ rfl rfl rfl

/-- C7: evaluation at the failing input. For an endpoint with no declared
field set ("outcomes" is absent from `ENDPOINT_HEADERS`), the run does
not accumulate the fetched record unmodified: as soon as the first record
is processed, the loop `for header in headers` hits the never-assigned
local variable `headers` (the `else` branch only prints) and the run
aborts with a `NameError`, writing nothing. -/
theorem missing_headers_abort_run :
    headersFor "outcomes" = none ∧
    gtr_to_s3 "outcomes" "data/" "20240115" envOutcomes =
      .error RunError.headersUnbound ∧
    gtr_writes "outcomes" "data/" "20240115" envOutcomes = [] :=
  ⟨rfl, rfl, rfl⟩

theorem dictInsert_append (r : Record) (k : String) (v : Value)
    (h : k ∉ r.map Prod.fst) : dictInsert r k v = r ++ [(k, v)] := by
  induction r with
  | nil => rfl
  | cons kv rest ih =>
    obtain ⟨k', v'⟩ := kv
    simp only [List.map_cons, List.mem_cons] at h
    push_neg at h
    obtain ⟨hne, hrest⟩ := h
    simp only [dictInsert, if_neg (fun hkk : k' = k => hne (hkk.symm)),
      List.cons_append, List.cons.injEq, true_and]
    exact ih hrest

theorem project_foldl (item : Record) :
    ∀ (headers : List String) (acc : Record),
      headers.Nodup → (∀ h, h ∈ headers → h ∉ acc.map Prod.fst) →
      headers.foldl (fun acc h => dictInsert acc h (pyGet item h)) acc =
        acc ++ headers.map (fun h => (h, pyGet item h)) := by
  intro headers
  induction headers with
  | nil => intro acc _ _; simp
  | cons hd tl ih =>
    intro acc hnd hfresh
    have hstep : dictInsert acc hd (pyGet item hd) = acc ++ [(hd, pyGet item hd)] :=
      dictInsert_append acc hd (pyGet item hd)
        (hfresh hd (List.mem_cons_self hd tl))
    simp only [List.foldl_cons, hstep]
    rw [ih (acc ++ [(hd, pyGet item hd)]) (List.Nodup.of_cons hnd) ?_]
    · simp
    · intro h hmem
      simp only [List.map_append, List.mem_append, List.map_cons,
        List.map_nil, List.mem_singleton]
      push_neg
      refine ⟨hfresh h (List.mem_cons_of_mem hd hmem), ?_⟩
      intro hcontra
      exact (List.nodup_cons.mp hnd).1 (hcontra ▸ hmem)

theorem project_eq_map (headers : List String) (item : Record)
    (hnd : headers.Nodup) :
    project headers item = headers.map (fun h => (h, pyGet item h)) := by
  simpa using project_foldl item headers [] hnd (by simp)

theorem alistGet_map_self (f : String → Value) :
    ∀ (hs : List String) (h : String), h ∈ hs →
      alistGet h (hs.map (fun x => (x, f x))) = some (f h) := by
  intro hs
  induction hs with
  | nil => intro h hmem; exact absurd hmem (List.not_mem_nil h)
  | cons x xs ih =>
    intro h hmem
    by_cases hx : x = h
    · subst hx
      simp [alistGet]
    · have : h ∈ xs := by
        rcases List.mem_cons.mp hmem with h' | h'
        · exact absurd h'.symm hx
        · exact h'
      simp only [List.map_cons, alistGet, if_neg hx]
      exact ih h this

/-- C8: for every record and duplicate-free declared field set, the
projected record contains exactly the declared field names in their
declared order; each declared field maps to the input record's value when
present, and to the explicit absent marker (`None`, serialised as null)
when the input record lacks it — the key is never omitted. -/
theorem project_declared_fields (headers : List String) (item : Record)
    (hnd : headers.Nodup) :
    (project headers item).map Prod.fst = headers ∧
    (∀ h, h ∈ headers →
       alistGet h (project headers item) = some (pyGet item h)) ∧
    (∀ h, h ∈ headers → alistGet h item = none →
       alistGet h (project headers item) = some Value.null) := by
  have hmap := project_eq_map headers item hnd
  refine ⟨?_, ?_, ?_⟩
  · rw [hmap, List.map_map]
    have hcomp : (Prod.fst ∘ fun h : String => (h, pyGet item h)) = id := rfl
    rw [hcomp, List.map_id]
  · intro h hmem
    rw [hmap]
    exact alistGet_map_self (pyGet item) headers h hmem
  · intro h hmem habsent
    rw [hmap, alistGet_map_self (pyGet item) headers h hmem]
    simp [pyGet, habsent]

/-- C8 (witness): the theorem at a concrete record missing the "name" and
"addresses" fields of the "organisations" field set. -/
theorem project_declared_fields_witness :
    (project ["id", "name", "addresses"] [("id", Value.num 1)]).map Prod.fst =
      ["id", "name", "addresses"] ∧
    (∀ h, h ∈ ["id", "name", "addresses"] →
       alistGet h (project ["id", "name", "addresses"] [("id", Value.num 1)]) =
         some (pyGet [("id", Value.num 1)] h)) ∧
    (∀ h, h ∈ ["id", "name", "addresses"] →
       alistGet h [("id", Value.num 1)] = none →
       alistGet h (project ["id", "name", "addresses"] [("id", Value.num 1)]) =
         some Value.null) :=
  project_declared_fields ["id", "name", "addresses"] [("id", Value.num 1)]
    (by decide)

/-- C9: for every discovery response whose parsed body lacks a
`totalPages` field — or reports `totalPages = 0` — the paginator yields
zero pages rather than an error: the page sequence is empty, the run
fetches no pages, and it publishes the empty array under the run's key. -/
theorem missing_total_pages_publishes_empty
    (endpoint destination_path timestamp : String) (env : Env)
    (body : List (String × Value))
    (hd : env.discovery = some body)
    (h0 : alistGet "totalPages" body = none ∨
          get_total_pages body = .ok 0) :
    get_total_pages body = .ok 0 ∧
    gtr_to_s3 endpoint destination_path timestamp env =
      .ok ⟨get_s3_key endpoint destination_path timestamp, []⟩ ∧
    gtr_writes endpoint destination_path timestamp env =
      [⟨get_s3_key endpoint destination_path timestamp, []⟩] := by
  have ht : get_total_pages body = .ok 0 := by
    rcases h0 with h | h
    · simp [get_total_pages, h]
    · exact h
  have hrange : pageRange 0 = [] := rfl
  have hrun : gtr_to_s3 endpoint destination_path timestamp env =
      .ok ⟨get_s3_key endpoint destination_path timestamp, []⟩ := by
    simp [gtr_to_s3, hd, ht, hrange, fetch_pages]
  exact ⟨ht, hrun, by simp [gtr_writes, hrun]⟩

/-- C9 (witness): the theorem at a discovery body that is the empty JSON
object, for the "projects" endpoint. -/
theorem missing_total_pages_publishes_empty_witness :
    get_total_pages [] = .ok 0 ∧
    gtr_to_s3 "projects" "data/" "20240115" envNoTotal =
      .ok ⟨get_s3_key "projects" "data/" "20240115", []⟩ ∧
    gtr_writes "projects" "data/" "20240115" envNoTotal =
      [⟨get_s3_key "projects" "data/" "20240115", []⟩] :=
  missing_total_pages_publishes_empty "projects" "data/" "20240115"
    envNoTotal [] rfl (Or.inl rfl)

end GtR
